import Mathlib

/-!
Shallow embedding of the gravity-simulation core of threejs_gravsim
(src/js/PhysicsEngine.js, the Planet class, and the constants file).

Numbers: JavaScript float64 values are embedded as exact rationals (ℚ);
`Math.sqrt` has no exact rational counterpart, so every function that the
source computes with `Math.sqrt` is parameterized by a square-root
function `sq : ℚ → ℚ`, and theorems that need square-root facts assume
them pointwise at the arguments actually used.  Wall-clock time
(`Date.now()`) is passed in explicitly as an integer `now`.  Rendering
state (Three.js scenes, meshes, geometries, materials) carries no
simulation content and is omitted; `Planet.color` is kept as an opaque
number chosen by the caller (the source draws it from `Math.random`).
-/

namespace GravSim

/- Constants for physics simulation (source: constants file, `PhysicsConstants`). -/
namespace PhysicsConstants

/-- Gravitational constant. -/
def G : ℚ := 6.67430e-11

/-- Time scale (to speed up the simulation). -/
def TIME_SCALE : ℚ := 2.0e11

/-- Distance scale (to adjust the display). -/
def DISTANCE_SCALE : ℚ := 1.0e9

/-- Minimum distance (to prevent collisions). -/
def MIN_DISTANCE : ℚ := 1.0

/-- Skip gravity calculations between planets beyond this distance. -/
def MAX_FORCE_DISTANCE : ℚ := 100.0

end PhysicsConstants

/- Constants for the sun (source: constants file, `SunConstants`). -/
namespace SunConstants

/-- Sun's mass. -/
def MASS : ℚ := 1.11e7

/-- Sun's radius (pixels). -/
def RADIUS : ℚ := 5

end SunConstants

/- Constants for planets (source: constants file, `PlanetConstants`). -/
namespace PlanetConstants

/-- Planet's mass. -/
def MASS : ℚ := 200000

/-- Maximum number of planets. -/
def MAX_COUNT : ℕ := 10

/-- Number of points in the trail. -/
def TRAIL_LENGTH : ℕ := 10

end PlanetConstants

/- Constants for rendering (source: constants file, `RenderConstants`). -/
namespace RenderConstants

/-- Trail update interval (milliseconds). -/
def TRAIL_UPDATE_INTERVAL : ℤ := 35

end RenderConstants

/- Constants for collision effects (source: constants file, `CollisionConstants`). -/
namespace CollisionConstants

/-- Collision effect duration (milliseconds). -/
def COLLISION_EFFECT_DURATION : ℤ := 105

end CollisionConstants

/-- The Planet class (source: Planet.js).  Scene/mesh/geometry fields are
rendering-only and omitted; `trailPositions` is the ordered list of
historical (x, y) samples, most-recent-first. -/
structure Planet where
  x : ℚ
  y : ℚ
  vx : ℚ
  vy : ℚ
  color : ℕ
  trailPositions : List (ℚ × ℚ)
  deriving DecidableEq, Repr, Inhabited

namespace Planet

/-- Planet constructor followed by `initTrail` (the source defers
`initTrail` through a zero-delay timeout, which the single-threaded event
loop runs before any further engine call; the trail starts as
TRAIL_LENGTH copies of the initial position). -/
def create (x y vx vy : ℚ) (color : ℕ) : Planet :=
  { x := x, y := y, vx := vx, vy := vy, color := color,
    trailPositions := List.replicate PlanetConstants.TRAIL_LENGTH (x, y) }

/-- Trail sampling step of `Planet.update` (source lines 116-127): shift
every slot one position toward the tail, dropping the oldest sample, then
write the new position into slot 0.  On a trail of length TRAIL_LENGTH
this equals consing the new position onto the first TRAIL_LENGTH - 1 old
samples. -/
def sampleTrail (trail : List (ℚ × ℚ)) (pos : ℚ × ℚ) : List (ℚ × ℚ) :=
  pos :: trail.take (PlanetConstants.TRAIL_LENGTH - 1)

/-- Planet.update (source lines 103-128): semi-implicit Euler integration
with the fixed TIME_SCALE step, then optional trail sampling. -/
def update (p : Planet) (ax ay : ℚ) (updateTrails : Bool) : Planet :=
  let vx := p.vx + ax * PhysicsConstants.TIME_SCALE
  let vy := p.vy + ay * PhysicsConstants.TIME_SCALE
  let x := p.x + vx * PhysicsConstants.TIME_SCALE
  let y := p.y + vy * PhysicsConstants.TIME_SCALE
  let trail := if updateTrails then sampleTrail p.trailPositions (x, y)
               else p.trailPositions
  { p with x := x, y := y, vx := vx, vy := vy, trailPositions := trail }

/-- Planet.isOutOfBounds (source lines 136-138). -/
def isOutOfBounds (p : Planet) (maxX maxY : ℚ) : Bool :=
  decide (|p.x| > maxX ∨ |p.y| > maxY)

/-- Planet.isCollidedWithSun (source lines 144-148). -/
def isCollidedWithSun (p : Planet) : Bool :=
  decide (p.x * p.x + p.y * p.y < SunConstants.RADIUS * SunConstants.RADIUS)

end Planet

/-- CollisionEffectState: the four `collisionEffect*` scalar fields of the
engine (source constructor lines 17-20); the effect mesh is rendering-only
and omitted. -/
structure EffectState where
  active : Bool
  x : ℚ
  y : ℚ
  startTime : ℤ
  deriving DecidableEq, Repr, Inhabited

/-- PhysicsEngine state (source constructor lines 10-22). -/
structure PhysicsEngine where
  planets : List Planet
  lastTrailUpdateTime : ℤ
  effect : EffectState
  deriving DecidableEq, Repr, Inhabited

namespace PhysicsEngine

/-- Freshly constructed engine (source constructor lines 10-22). -/
def init : PhysicsEngine :=
  { planets := [],
    lastTrailUpdateTime := 0,
    effect := { active := false, x := 0, y := 0, startTime := 0 } }

/-- `this.distanceScaleSquared` (source constructor line 14). -/
def distanceScaleSquared : ℚ :=
  PhysicsConstants.DISTANCE_SCALE * PhysicsConstants.DISTANCE_SCALE

/-- List-level body of addPlanet (source lines 31-41): push the new planet
onto the tail; if the count now exceeds MAX_COUNT, shift off the head
(oldest).  The planet's color is passed in by the caller (the source draws
it from `Planet.randomPastelColor`). -/
def addPlanetList (ps : List Planet) (x y vx vy : ℚ) (color : ℕ) : List Planet :=
  let planet := Planet.create x y vx vy color
  let pushed := ps ++ [planet]
  if pushed.length > PlanetConstants.MAX_COUNT then pushed.tail else pushed

/-- addPlanet (source lines 31-41). -/
def addPlanet (e : PhysicsEngine) (x y vx vy : ℚ) (color : ℕ) : PhysicsEngine :=
  { e with planets := addPlanetList e.planets x y vx vy color }

/-- shouldUpdateTrails (source lines 47-54): consult the wall-clock trail
cooldown; when it fires, reset the timer. -/
def shouldUpdateTrails (now : ℤ) (e : PhysicsEngine) : PhysicsEngine × Bool :=
  if now - e.lastTrailUpdateTime > RenderConstants.TRAIL_UPDATE_INTERVAL then
    ({ e with lastTrailUpdateTime := now }, true)
  else
    (e, false)

/-- Acceleration the sun imparts to one planet (the arithmetic of
calculateSunGravity, source lines 62-78), with `sq` standing for
`Math.sqrt`. -/
def sunAccel (sq : ℚ → ℚ) (p : Planet) : ℚ × ℚ :=
  let dx := -p.x
  let dy := -p.y
  let r2 := dx * dx + dy * dy
  let r := sq r2
  let force := PhysicsConstants.G * PlanetConstants.MASS * SunConstants.MASS /
      (r * r * distanceScaleSquared)
  (force * dx / (r * PlanetConstants.MASS), force * dy / (r * PlanetConstants.MASS))

/-- calculateSunGravity (source lines 62-79): add the sun's contribution
for planet `i` into the acceleration accumulators. -/
def calculateSunGravity (sq : ℚ → ℚ) (ps : List Planet) (i : ℕ)
    (ax ay : List ℚ) : List ℚ × List ℚ :=
  let a := sunAccel sq (ps.getD i default)
  (ax.set i (ax.getD i 0 + a.1), ay.set i (ay.getD i 0 + a.2))

/-- The same sun-gravity arithmetic with each division checked: `none`
models the non-finite float64 value (Infinity or NaN) that the source
produces when a divisor is zero, which happens exactly when the planet
sits at the origin (the source applies no minimum-distance floor here). -/
def sunAccelChecked (sq : ℚ → ℚ) (p : Planet) : Option (ℚ × ℚ) :=
  let dx := -p.x
  let dy := -p.y
  let r2 := dx * dx + dy * dy
  let r := sq r2
  if r * r * distanceScaleSquared = 0 then none
  else
    let force := PhysicsConstants.G * PlanetConstants.MASS * SunConstants.MASS /
        (r * r * distanceScaleSquared)
    if r * PlanetConstants.MASS = 0 then none
    else some (force * dx / (r * PlanetConstants.MASS),
               force * dy / (r * PlanetConstants.MASS))

/-- Squared-distance floor of calculatePlanetGravity (source lines
101-103): clamp the squared separation up to MIN_DISTANCE squared. -/
def effectiveDistSq (r2 : ℚ) : ℚ :=
  let minDistanceSquared := PhysicsConstants.MIN_DISTANCE * PhysicsConstants.MIN_DISTANCE
  if r2 < minDistanceSquared then minDistanceSquared else r2

/-- Pairwise force magnitude of calculatePlanetGravity (source lines
105-108): inverse-square law from the floored squared distance. -/
def pairForce (sq : ℚ → ℚ) (r2 : ℚ) : ℚ :=
  let r := sq (effectiveDistSq r2)
  PhysicsConstants.G * PlanetConstants.MASS * PlanetConstants.MASS /
      (r * r * distanceScaleSquared)

/-- Pairwise acceleration components added to planet i for one pair
(source lines 105-112); planet j receives the negation. -/
def pairAccel (sq : ℚ → ℚ) (dx dy r2 : ℚ) : ℚ × ℚ :=
  let r := sq (effectiveDistSq r2)
  let force := pairForce sq r2
  (force * dx / (r * PlanetConstants.MASS), force * dy / (r * PlanetConstants.MASS))

/-- One iteration of the inner pair loop of calculatePlanetGravity
(source lines 90-120): skip the pair beyond the cutoff distance,
otherwise apply equal-and-opposite contributions to i and j. -/
def planetPairGravity (sq : ℚ → ℚ) (ps : List Planet) (i j : ℕ)
    (ax ay : List ℚ) : List ℚ × List ℚ :=
  let pI := ps.getD i default
  let pJ := ps.getD j default
  let dx := pJ.x - pI.x
  let dy := pJ.y - pI.y
  let r2 := dx * dx + dy * dy
  let maxDistanceSquared :=
    PhysicsConstants.MAX_FORCE_DISTANCE * PhysicsConstants.MAX_FORCE_DISTANCE
  if r2 > maxDistanceSquared then
    (ax, ay)
  else
    let a := pairAccel sq dx dy r2
    let ax1 := ax.set i (ax.getD i 0 + a.1)
    let ax2 := ax1.set j (ax1.getD j 0 - a.1)
    let ay1 := ay.set i (ay.getD i 0 + a.2)
    let ay2 := ay1.set j (ay1.getD j 0 - a.2)
    (ax2, ay2)

/-- calculatePlanetGravity (source lines 86-123): the double loop over
unordered pairs i < j. -/
def calculatePlanetGravity (sq : ℚ → ℚ) (ps : List Planet)
    (ax ay : List ℚ) : List ℚ × List ℚ :=
  (List.range ps.length).foldl
    (fun acc i =>
      (List.range' (i + 1) (ps.length - (i + 1))).foldl
        (fun acc2 j => planetPairGravity sq ps i j acc2.1 acc2.2) acc)
    (ax, ay)

/-- Collision-effect expiry check at the top of update (source lines
134-145); the mesh removal is rendering-only and omitted. -/
def expireCollisionEffect (now : ℤ) (e : PhysicsEngine) : PhysicsEngine :=
  if e.effect.active then
    if now - e.effect.startTime > CollisionConstants.COLLISION_EFFECT_DURATION then
      { e with effect := { e.effect with active := false } }
    else e
  else e

/-- update (source lines 129-170): trail-cooldown check, effect expiry,
early return on an empty collection, accelerations (sun then pairwise),
and integration of every planet. -/
def update (sq : ℚ → ℚ) (now : ℤ) (e : PhysicsEngine) : PhysicsEngine × Bool :=
  let su := shouldUpdateTrails now e
  let e1 := su.1
  let shouldUpdateTrailPositions := su.2
  let e2 := expireCollisionEffect now e1
  if e2.planets.length = 0 then (e2, shouldUpdateTrailPositions)
  else
    let n := e2.planets.length
    let ax0 : List ℚ := List.replicate n 0
    let ay0 : List ℚ := List.replicate n 0
    let sunDone := (List.range n).foldl
      (fun acc i => calculateSunGravity sq e2.planets i acc.1 acc.2) (ax0, ay0)
    let pairDone := calculatePlanetGravity sq e2.planets sunDone.1 sunDone.2
    let planets' := (List.range n).map
      (fun i => (e2.planets.getD i default).update
        (pairDone.1.getD i 0) (pairDone.2.getD i 0) shouldUpdateTrailPositions)
    ({ e2 with planets := planets' }, shouldUpdateTrailPositions)

/-- The body of the removal loop of removeOutOfBoundsPlanets (source
lines 185-218).  The source iterates indices from the tail down to 0,
splicing out the current index; processing the list tail first, then the
head, reproduces that order exactly (a splice at the current index never
moves lower indices). -/
def removeLoop (now : ℤ) (maxX maxY : ℚ) :
    List Planet → EffectState → List Planet × EffectState
  | [], eff => ([], eff)
  | p :: rest, eff =>
    let r := removeLoop now maxX maxY rest eff
    if p.isOutOfBounds maxX maxY then
      (r.1, r.2)
    else if p.isCollidedWithSun then
      (r.1, { active := true, x := p.x, y := p.y, startTime := now })
    else
      (p :: r.1, r.2)

/-- removeOutOfBoundsPlanets (source lines 177-219). -/
def removeOutOfBoundsPlanets (now : ℤ) (maxX maxY : ℚ)
    (e : PhysicsEngine) : PhysicsEngine :=
  if e.planets.length = 0 then e
  else
    let r := removeLoop now maxX maxY e.planets e.effect
    { e with planets := r.1, effect := r.2 }

/-- getPlanetCount (source lines 225-227). -/
def getPlanetCount (e : PhysicsEngine) : ℕ :=
  e.planets.length

/-- hasActiveCollisionEffect (source lines 241-243). -/
def hasActiveCollisionEffect (e : PhysicsEngine) : Bool :=
  e.effect.active

/-- Ghost-instrumented copy of `removeLoop`: identical removal decisions,
plus a log of the planets in the order the loop evaluates them (the
source walks indices from the tail to the head, so the log of the whole
list is its reverse).  Used only to state that every live body is
evaluated exactly once per removal pass. -/
def removeLoopVisits (now : ℤ) (maxX maxY : ℚ) :
    List Planet → EffectState → (List Planet × EffectState) × List Planet
  | [], eff => (([], eff), [])
  | p :: rest, eff =>
    let r := removeLoopVisits now maxX maxY rest eff
    let step :=
      if p.isOutOfBounds maxX maxY then
        (r.1.1, r.1.2)
      else if p.isCollidedWithSun then
        (r.1.1, { active := true, x := p.x, y := p.y, startTime := now })
      else
        (p :: r.1.1, r.1.2)
    (step, r.2 ++ [p])

end PhysicsEngine

/-- Concrete stand-in for `Math.sqrt` used by witnesses and
counterexamples: exact (agreeing with the real square root) at every
point where they evaluate it — 0, 1, and 25. -/
def sqWitness (q : ℚ) : ℚ :=
  if q = 25 then 5 else if q = 0 then 0 else 1

/-- Positions used by the MAX_COUNT + 1 insertion scenario: distinct x
coordinates 1, 2, ..., MAX_COUNT + 1. -/
def scenarioXs : List ℚ :=
  [1, 2, 3, 4, 5, 6, 7, 8, 9, 10, 11]

/-- Engine obtained by calling addPlanet MAX_COUNT + 1 times in sequence
on a fresh engine, at the distinct scenario positions. -/
def scenarioEngine : PhysicsEngine :=
  scenarioXs.foldl (fun e xk => e.addPlanet xk 0 0 0 0) PhysicsEngine.init

/-- Concrete engine used by the trail-policy witness: one planet with a
freshly initialized trail, timer at 0. -/
def trailEngineW : PhysicsEngine :=
  { planets := [Planet.create 3 4 1 1 0],
    lastTrailUpdateTime := 0,
    effect := { active := false, x := 0, y := 0, startTime := 0 } }

/-- Concrete engine used by the collision-effect witness: an active
effect and one in-bounds planet sitting inside the sun's radius. -/
def effectEngineW : PhysicsEngine :=
  { planets := [Planet.create 3 0 0 0 0],
    lastTrailUpdateTime := 0,
    effect := { active := true, x := 1, y := 2, startTime := 0 } }

/-
Reference-level model of `getPlanets` (source lines 233-235, literally
`return this.planets;`).  A JavaScript array is a heap reference, so
`this.planets` is an index into a heap of arrays and `getPlanets` hands
back that same index — not a copy.  This tiny heap model is what makes
aliasing observable in a pure embedding.
-/

/-- Engine state at reference level: a heap of arrays plus the reference
held in the engine's `planets` field. -/
structure EngineHeap where
  heap : List (List Planet)
  planetsRef : ℕ
  deriving DecidableEq, Repr

namespace EngineHeap

/-- getPlanets (source lines 233-235): returns the reference stored in
`this.planets`, unchanged. -/
def getPlanets (e : EngineHeap) : ℕ :=
  e.planetsRef

/-- Read the array behind a reference. -/
def readArray (e : EngineHeap) (r : ℕ) : List Planet :=
  e.heap.getD r []

/-- Mutate the array behind a reference in place (what a collaborator
does when it writes through the value `getPlanets` returned). -/
def writeArray (e : EngineHeap) (r : ℕ) (v : List Planet) : EngineHeap :=
  { e with heap := e.heap.set r v }

/-- getPlanetCount at reference level. -/
def getPlanetCount (e : EngineHeap) : ℕ :=
  (e.readArray e.planetsRef).length

/-- addPlanet at reference level: the source mutates `this.planets` in
place (push / shift), i.e. updates the array behind the engine's
reference without changing the reference itself. -/
def addPlanet (e : EngineHeap) (x y vx vy : ℚ) (color : ℕ) : EngineHeap :=
  e.writeArray e.planetsRef
    (PhysicsEngine.addPlanetList (e.readArray e.planetsRef) x y vx vy color)

end EngineHeap

/-!
Helper lemmas shared by the claim theorems.
-/

/-- Reading back the slot just written. -/
theorem getD_set_self {α : Type} (l : List α) (i : ℕ) (a d : α) (h : i < l.length) :
    (l.set i a).getD i d = a := by
  simp [List.getD_eq_getElem?_getD, List.getElem?_set_self', List.getElem?_eq_getElem h]

/-- Writing one slot leaves the others unchanged. -/
theorem getD_set_ne {α : Type} (l : List α) (i j : ℕ) (a d : α) (h : i ≠ j) :
    (l.set i a).getD j d = l.getD j d := by
  simp [List.getD_eq_getElem?_getD, List.getElem?_set_ne h]

/-- Indexing a map over an index range. -/
theorem getD_map_range (f : ℕ → Planet) {n i : ℕ} (h : i < n) :
    ((List.range n).map f).getD i default = f i := by
  rw [List.getD_eq_getElem?_getD, List.getElem?_map, List.getElem?_range h]
  rfl

/-- Indexing a map over an index range, out of range. -/
theorem getD_map_range_oob (f : ℕ → Planet) {n i : ℕ} (h : ¬ i < n) :
    ((List.range n).map f).getD i default = default := by
  rw [List.getD_eq_getElem?_getD, List.getElem?_map]
  rw [List.getElem?_eq_none (by simpa using Nat.le_of_not_lt h)]
  rfl

/-- Out-of-range read of the planet list. -/
theorem getD_oob (l : List Planet) {i : ℕ} (h : ¬ i < l.length) :
    l.getD i default = default := by
  rw [List.getD_eq_getElem?_getD, List.getElem?_eq_none (Nat.le_of_not_lt h)]
  rfl

/-- An in-range read of the planet list is a member of it. -/
theorem getD_mem (l : List Planet) {i : ℕ} (h : i < l.length) :
    l.getD i default ∈ l := by
  rw [List.getD_eq_getElem _ _ h]
  exact List.getElem_mem h

/-- Effect expiry does not touch the planet list. -/
theorem expire_planets (now : ℤ) (e : PhysicsEngine) :
    (PhysicsEngine.expireCollisionEffect now e).planets = e.planets := by
  unfold PhysicsEngine.expireCollisionEffect
  split
  · split
    · rfl
    · rfl
  · rfl

/-- One step returns exactly the trail-cooldown flag. -/
theorem update_flag (sq : ℚ → ℚ) (now : ℤ) (e : PhysicsEngine) :
    (PhysicsEngine.update sq now e).2 = (PhysicsEngine.shouldUpdateTrails now e).2 := by
  simp only [PhysicsEngine.update]
  split <;> rfl

/-- The trail-cooldown flag is the cooldown comparison itself. -/
theorem shouldUpdateTrails_flag (now : ℤ) (e : PhysicsEngine) :
    (PhysicsEngine.shouldUpdateTrails now e).2 =
      decide (now - e.lastTrailUpdateTime > RenderConstants.TRAIL_UPDATE_INTERVAL) := by
  unfold PhysicsEngine.shouldUpdateTrails
  split
  · rename_i h
    simp [h]
  · rename_i h
    simp [h]

/-- The trail-cooldown check does not touch the collision effect. -/
theorem shouldUpdateTrails_effect (now : ℤ) (e : PhysicsEngine) :
    (PhysicsEngine.shouldUpdateTrails now e).1.effect = e.effect := by
  unfold PhysicsEngine.shouldUpdateTrails
  split
  · rfl
  · rfl

/-- Componentwise behavior of effect expiry: `active` is cleared exactly
when the effect was active and its duration has elapsed; the position and
start-time fields are never modified by expiry. -/
theorem expire_effect_spec (now : ℤ) (e : PhysicsEngine) :
    (PhysicsEngine.expireCollisionEffect now e).effect.active =
      (e.effect.active &&
        !(decide (now - e.effect.startTime > CollisionConstants.COLLISION_EFFECT_DURATION))) ∧
    (PhysicsEngine.expireCollisionEffect now e).effect.x = e.effect.x ∧
    (PhysicsEngine.expireCollisionEffect now e).effect.y = e.effect.y ∧
    (PhysicsEngine.expireCollisionEffect now e).effect.startTime = e.effect.startTime := by
  unfold PhysicsEngine.expireCollisionEffect
  by_cases ha : e.effect.active <;>
    by_cases hx : now - e.effect.startTime > CollisionConstants.COLLISION_EFFECT_DURATION <;>
    simp [ha, hx]

/-- A step changes the collision effect exactly as effect expiry does. -/
theorem update_effect_eq (sq : ℚ → ℚ) (now : ℤ) (e : PhysicsEngine) :
    (PhysicsEngine.update sq now e).1.effect =
      (PhysicsEngine.expireCollisionEffect now
        (PhysicsEngine.shouldUpdateTrails now e).1).effect := by
  simp only [PhysicsEngine.update]
  split
  · rfl
  · rfl

/-- The removal loop either leaves the effect alone or overwrites it with
the data of some in-bounds body that collided with the sun. -/
theorem removeLoop_effect_spec (now : ℤ) (maxX maxY : ℚ) (l : List Planet)
    (eff : EffectState) :
    (PhysicsEngine.removeLoop now maxX maxY l eff).2 = eff ∨
    ∃ p ∈ l, p.isOutOfBounds maxX maxY = false ∧ p.isCollidedWithSun = true ∧
      (PhysicsEngine.removeLoop now maxX maxY l eff).2 =
        { active := true, x := p.x, y := p.y, startTime := now } := by
  induction l with
  | nil => exact Or.inl rfl
  | cons p rest ih =>
    simp only [PhysicsEngine.removeLoop]
    by_cases h1 : p.isOutOfBounds maxX maxY
    · simp only [h1, if_true]
      rcases ih with h | ⟨q, hq, hq1, hq2, hq3⟩
      · exact Or.inl h
      · exact Or.inr ⟨q, List.mem_cons_of_mem p hq, hq1, hq2, hq3⟩
    · simp only [h1, if_false]
      by_cases h2 : p.isCollidedWithSun
      · simp only [h2, if_true]
        exact Or.inr ⟨p, List.mem_cons_self p rest,
          Bool.eq_false_iff.mpr h1, h2, rfl⟩
      · simp only [h2, if_false]
        rcases ih with h | ⟨q, hq, hq1, hq2, hq3⟩
        · exact Or.inl h
        · exact Or.inr ⟨q, List.mem_cons_of_mem p hq, hq1, hq2, hq3⟩

/-- The removal loop never clears an active effect. -/
theorem removeLoop_keeps_active (now : ℤ) (maxX maxY : ℚ) (l : List Planet)
    (eff : EffectState) (h : eff.active = true) :
    (PhysicsEngine.removeLoop now maxX maxY l eff).2.active = true := by
  induction l with
  | nil => exact h
  | cons p rest ih =>
    simp only [PhysicsEngine.removeLoop]
    by_cases h1 : p.isOutOfBounds maxX maxY
    · simpa [h1] using ih
    · by_cases h2 : p.isCollidedWithSun
      · simp [h1, h2]
      · simpa [h1, h2] using ih

/-- The removal loop keeps exactly the bodies that are neither out of
bounds nor collided with the sun, in their original order. -/
theorem removeLoop_eq_filter (now : ℤ) (maxX maxY : ℚ) (l : List Planet) (eff : EffectState) :
    (PhysicsEngine.removeLoop now maxX maxY l eff).1 =
      l.filter (fun p => !(p.isOutOfBounds maxX maxY) && !(p.isCollidedWithSun)) := by
  induction l with
  | nil => rfl
  | cons p rest ih =>
    simp only [PhysicsEngine.removeLoop, List.filter]
    by_cases h1 : p.isOutOfBounds maxX maxY
    · simp [h1, ih]
    · by_cases h2 : p.isCollidedWithSun <;> simp [h1, h2, ih]

/-- The instrumented removal loop logs each body exactly once, in the
loop's tail-to-head visit order, and computes the same result as the
plain loop. -/
theorem removeLoopVisits_spec (now : ℤ) (maxX maxY : ℚ) (l : List Planet) (eff : EffectState) :
    (PhysicsEngine.removeLoopVisits now maxX maxY l eff).2 = l.reverse ∧
    (PhysicsEngine.removeLoopVisits now maxX maxY l eff).1 =
      PhysicsEngine.removeLoop now maxX maxY l eff := by
  induction l with
  | nil => exact ⟨rfl, rfl⟩
  | cons p rest ih =>
    constructor
    · simp only [PhysicsEngine.removeLoopVisits, List.reverse_cons, ih.1]
    · simp only [PhysicsEngine.removeLoopVisits, PhysicsEngine.removeLoop, ih.2]

/-- Deleting an out-of-bounds body from the pass changes nothing: the
body is removed via the boundary branch, which touches neither the
survivors nor the collision-effect state. -/
theorem removeLoop_oob_delete (now : ℤ) (maxX maxY : ℚ) (l1 l2 : List Planet)
    (p : Planet) (eff : EffectState) (hoob : p.isOutOfBounds maxX maxY = true) :
    PhysicsEngine.removeLoop now maxX maxY (l1 ++ p :: l2) eff =
      PhysicsEngine.removeLoop now maxX maxY (l1 ++ l2) eff := by
  induction l1 with
  | nil => simp [PhysicsEngine.removeLoop, hoob]
  | cons q l1' ih =>
    simp only [List.cons_append, PhysicsEngine.removeLoop, List.append_eq, ih]

/-- Engine-level form of `removeLoop_eq_filter`, covering the empty early
return of removeOutOfBoundsPlanets. -/
theorem engine_remove_eq_filter (now : ℤ) (maxX maxY : ℚ) (e : PhysicsEngine) :
    (PhysicsEngine.removeOutOfBoundsPlanets now maxX maxY e).planets =
      e.planets.filter (fun p => !(p.isOutOfBounds maxX maxY) && !(p.isCollidedWithSun)) := by
  simp only [PhysicsEngine.removeOutOfBoundsPlanets]
  split
  · rename_i h
    rw [List.length_eq_zero] at h
    simp [h]
  · exact removeLoop_eq_filter now maxX maxY e.planets e.effect

/-- Engine-level form of `removeLoop_oob_delete`. -/
theorem engine_remove_oob_delete (now : ℤ) (maxX maxY : ℚ) (e : PhysicsEngine)
    (l1 l2 : List Planet) (p : Planet) (hoob : p.isOutOfBounds maxX maxY = true) :
    PhysicsEngine.removeOutOfBoundsPlanets now maxX maxY { e with planets := l1 ++ p :: l2 } =
      PhysicsEngine.removeOutOfBoundsPlanets now maxX maxY { e with planets := l1 ++ l2 } := by
  simp only [PhysicsEngine.removeOutOfBoundsPlanets]
  rw [if_neg (by simp)]
  rw [removeLoop_oob_delete now maxX maxY l1 l2 p e.effect hoob]
  by_cases h : (l1 ++ l2).length = 0
  · rw [if_pos h]
    rw [List.length_eq_zero] at h
    rw [h]
    have h1 : l1 = [] := by
      cases l1 with
      | nil => rfl
      | cons a as => simp at h
    have h2 : l2 = [] := by
      cases l2 with
      | nil => rfl
      | cons a as => simp [h1] at h
    subst h1; subst h2
    simp [PhysicsEngine.removeLoop, hoob]
  · rw [if_neg h]

/-!
Claim theorems.
-/

/-- C1: after any addPlanet call on a collection holding at most
MAX_COUNT bodies, the count is still at most MAX_COUNT; when the call
would exceed MAX_COUNT, exactly the head (oldest by creation order) is
evicted, unconditionally — the remaining bodies are the old tail plus the
new body — and otherwise the new body is simply appended.  In the
MAX_COUNT + 1 insertion scenario the final count is MAX_COUNT and the
surviving oldest body is the second one ever added (x = 2). -/
theorem addBody_fifo (e : PhysicsEngine) (x y vx vy : ℚ) (c : ℕ)
    (h : e.planets.length ≤ PlanetConstants.MAX_COUNT) :
    (e.addPlanet x y vx vy c).planets.length ≤ PlanetConstants.MAX_COUNT ∧
    (e.planets.length < PlanetConstants.MAX_COUNT →
      (e.addPlanet x y vx vy c).planets = e.planets ++ [Planet.create x y vx vy c]) ∧
    (e.planets.length = PlanetConstants.MAX_COUNT →
      (e.addPlanet x y vx vy c).planets = e.planets.tail ++ [Planet.create x y vx vy c]) ∧
    PhysicsEngine.getPlanetCount scenarioEngine = PlanetConstants.MAX_COUNT ∧
    scenarioEngine.planets.head? = some (Planet.create 2 0 0 0 0) := by
  refine ⟨?_, ?_, ?_, by decide, by decide⟩
  · simp only [PhysicsEngine.addPlanet, PhysicsEngine.addPlanetList]
    split
    · simp only [List.length_tail, List.length_append, List.length_singleton]
      omega
    · rename_i hc
      simp only [List.length_append, List.length_singleton] at hc ⊢
      omega
  · intro hlt
    simp only [PhysicsEngine.addPlanet, PhysicsEngine.addPlanetList]
    rw [if_neg]
    simp only [List.length_append, List.length_singleton]
    omega
  · intro heq
    simp only [PhysicsEngine.addPlanet, PhysicsEngine.addPlanetList]
    rw [if_pos]
    · cases hp : e.planets with
      | nil =>
        rw [hp] at heq
        simp [PlanetConstants.MAX_COUNT] at heq
      | cons a l => simp
    · simp only [List.length_append, List.length_singleton]
      simp only [PlanetConstants.MAX_COUNT] at heq ⊢
      omega

/-- Witness for C1 at a concrete engine (the fresh engine, count 0). -/
theorem addBody_fifo_witness :
    PhysicsEngine.init.planets.length ≤ PlanetConstants.MAX_COUNT ∧
    ((PhysicsEngine.init.addPlanet 1 2 3 4 0).planets.length ≤ PlanetConstants.MAX_COUNT ∧
     (PhysicsEngine.init.planets.length < PlanetConstants.MAX_COUNT →
       (PhysicsEngine.init.addPlanet 1 2 3 4 0).planets =
         PhysicsEngine.init.planets ++ [Planet.create 1 2 3 4 0]) ∧
     (PhysicsEngine.init.planets.length = PlanetConstants.MAX_COUNT →
       (PhysicsEngine.init.addPlanet 1 2 3 4 0).planets =
         PhysicsEngine.init.planets.tail ++ [Planet.create 1 2 3 4 0]) ∧
     PhysicsEngine.getPlanetCount scenarioEngine = PlanetConstants.MAX_COUNT ∧
     scenarioEngine.planets.head? = some (Planet.create 2 0 0 0 0)) :=
  ⟨by decide, addBody_fifo PhysicsEngine.init 1 2 3 4 0 (by decide)⟩

/-- C5: the boundary-exit check has strict priority over the
central-collision check.  An out-of-bounds body — including one that also
satisfies the collision predicate — is removed through the boundary
branch only: deleting it from the pass changes neither the survivors nor
the collision-effect state (so the effect is never activated or
overwritten on its account, and it triggers exactly one removal outcome),
both at loop level and at the level of a whole removeOutOfBoundsPlanets
call. -/
theorem boundary_exit_priority (now : ℤ) (maxX maxY : ℚ) (e : PhysicsEngine)
    (l1 l2 : List Planet) (p : Planet) (eff : EffectState)
    (hoob : p.isOutOfBounds maxX maxY = true) :
    PhysicsEngine.removeLoop now maxX maxY (l1 ++ p :: l2) eff =
      PhysicsEngine.removeLoop now maxX maxY (l1 ++ l2) eff ∧
    PhysicsEngine.removeLoop now maxX maxY [p] eff = ([], eff) ∧
    PhysicsEngine.removeOutOfBoundsPlanets now maxX maxY { e with planets := l1 ++ p :: l2 } =
      PhysicsEngine.removeOutOfBoundsPlanets now maxX maxY { e with planets := l1 ++ l2 } := by
  refine ⟨removeLoop_oob_delete now maxX maxY l1 l2 p eff hoob, ?_,
    engine_remove_oob_delete now maxX maxY e l1 l2 p hoob⟩
  simp [PhysicsEngine.removeLoop, hoob]

/-- Witness for C5: a body at (2, 0) with bounds maxX = 1, maxY = 100 is
simultaneously out of bounds and inside the sun's collision radius; the
pass removes it and leaves the effect state untouched. -/
theorem boundary_exit_priority_witness :
    ((Planet.create 2 0 0 0 0).isOutOfBounds 1 100 = true ∧
     (Planet.create 2 0 0 0 0).isCollidedWithSun = true) ∧
    (PhysicsEngine.removeLoop 7 1 100
        ([Planet.create 0 30 0 0 0] ++ Planet.create 2 0 0 0 0 :: [])
        { active := false, x := 0, y := 0, startTime := 0 } =
      PhysicsEngine.removeLoop 7 1 100 ([Planet.create 0 30 0 0 0] ++ [])
        { active := false, x := 0, y := 0, startTime := 0 } ∧
     PhysicsEngine.removeLoop 7 1 100 [Planet.create 2 0 0 0 0]
        { active := false, x := 0, y := 0, startTime := 0 } =
      ([], { active := false, x := 0, y := 0, startTime := 0 }) ∧
     PhysicsEngine.removeOutOfBoundsPlanets 7 1 100
        { PhysicsEngine.init with
            planets := [Planet.create 0 30 0 0 0] ++ Planet.create 2 0 0 0 0 :: [] } =
      PhysicsEngine.removeOutOfBoundsPlanets 7 1 100
        { PhysicsEngine.init with planets := [Planet.create 0 30 0 0 0] ++ [] }) :=
  ⟨⟨by decide,
    by norm_num [Planet.isCollidedWithSun, Planet.create, SunConstants.RADIUS]⟩,
    boundary_exit_priority 7 1 100 PhysicsEngine.init [Planet.create 0 30 0 0 0] []
      (Planet.create 2 0 0 0 0)
      { active := false, x := 0, y := 0, startTime := 0 } (by decide)⟩

/-- C10: one removal pass evaluates every live body exactly once (the
instrumented loop's visit log is the body list in the loop's
reverse-creation visit order, one entry per body, and the instrumented
loop computes exactly what the plain loop computes), and the bodies that
survive a removeOutOfBoundsPlanets call are precisely the filter of the
collection by neither-out-of-bounds-nor-collided — so each survivor keeps
its position, velocity, color and trail (it is the same Planet value) and
the survivors keep their relative creation order. -/
theorem removal_pass_visits_each_body_once (now : ℤ) (maxX maxY : ℚ)
    (e : PhysicsEngine) (l : List Planet) (eff : EffectState) :
    (PhysicsEngine.removeLoopVisits now maxX maxY l eff).2 = l.reverse ∧
    (PhysicsEngine.removeLoopVisits now maxX maxY l eff).1 =
      PhysicsEngine.removeLoop now maxX maxY l eff ∧
    (PhysicsEngine.removeOutOfBoundsPlanets now maxX maxY e).planets =
      e.planets.filter (fun p => !(p.isOutOfBounds maxX maxY) && !(p.isCollidedWithSun)) :=
  ⟨(removeLoopVisits_spec now maxX maxY l eff).1,
   (removeLoopVisits_spec now maxX maxY l eff).2,
   engine_remove_eq_filter now maxX maxY e⟩

/-- C2: a pair of bodies whose squared separation exceeds the cutoff
squared is skipped entirely — the pair pass returns both acceleration
accumulators unchanged, a contribution of exactly zero to both bodies —
while any body at nonzero distance from the origin still receives a
nonzero central-mass acceleration, pointing toward the origin (it equals
a positive constant times the negated position vector). -/
theorem cutoff_pair_zero_sun_nonzero (sq : ℚ → ℚ) (ps : List Planet) (i j : ℕ)
    (ax ay : List ℚ) (dx dy r2 : ℚ) (p : Planet)
    (hdx : dx = (ps.getD j default).x - (ps.getD i default).x)
    (hdy : dy = (ps.getD j default).y - (ps.getD i default).y)
    (hr2 : r2 = dx * dx + dy * dy)
    (hfar : r2 > PhysicsConstants.MAX_FORCE_DISTANCE * PhysicsConstants.MAX_FORCE_DISTANCE)
    (hp : ¬ (p.x = 0 ∧ p.y = 0))
    (hrpos : 0 < sq (-p.x * -p.x + -p.y * -p.y)) :
    PhysicsEngine.planetPairGravity sq ps i j ax ay = (ax, ay) ∧
    (∃ c : ℚ, 0 < c ∧ PhysicsEngine.sunAccel sq p = (-(c * p.x), -(c * p.y))) ∧
    PhysicsEngine.sunAccel sq p ≠ (0, 0) := by
  have hGpos : 0 < PhysicsConstants.G := by norm_num [PhysicsConstants.G]
  have hMspos : 0 < SunConstants.MASS := by norm_num [SunConstants.MASS]
  have hMppos : 0 < PlanetConstants.MASS := by norm_num [PlanetConstants.MASS]
  have hds2pos : 0 < PhysicsEngine.distanceScaleSquared := by
    norm_num [PhysicsEngine.distanceScaleSquared, PhysicsConstants.DISTANCE_SCALE]
  have hskip : PhysicsEngine.planetPairGravity sq ps i j ax ay = (ax, ay) := by
    simp only [PhysicsEngine.planetPairGravity]
    rw [← hdx, ← hdy, ← hr2, if_pos hfar]
  set r := sq (-p.x * -p.x + -p.y * -p.y) with hrdef
  have hrne : r ≠ 0 := ne_of_gt hrpos
  have hMppne : (PlanetConstants.MASS : ℚ) ≠ 0 := ne_of_gt hMppos
  have hds2ne : PhysicsEngine.distanceScaleSquared ≠ 0 := ne_of_gt hds2pos
  have hcpos : 0 < PhysicsConstants.G * SunConstants.MASS /
      (r * r * PhysicsEngine.distanceScaleSquared * r) :=
    div_pos (mul_pos hGpos hMspos)
      (mul_pos (mul_pos (mul_pos hrpos hrpos) hds2pos) hrpos)
  have hsun : PhysicsEngine.sunAccel sq p =
      (-(PhysicsConstants.G * SunConstants.MASS /
          (r * r * PhysicsEngine.distanceScaleSquared * r) * p.x),
       -(PhysicsConstants.G * SunConstants.MASS /
          (r * r * PhysicsEngine.distanceScaleSquared * r) * p.y)) := by
    simp only [PhysicsEngine.sunAccel, ← hrdef]
    rw [Prod.mk.injEq]
    refine ⟨?_, ?_⟩ <;> (field_simp; ring)
  refine ⟨hskip, ⟨_, hcpos, hsun⟩, ?_⟩
  rw [hsun]
  intro hzero
  rw [Prod.mk.injEq] at hzero
  have hcne : PhysicsConstants.G * SunConstants.MASS /
      (r * r * PhysicsEngine.distanceScaleSquared * r) ≠ 0 := ne_of_gt hcpos
  apply hp
  constructor
  · have hx := neg_eq_zero.mp hzero.1
    exact (mul_eq_zero.mp hx).resolve_left hcne
  · have hy := neg_eq_zero.mp hzero.2
    exact (mul_eq_zero.mp hy).resolve_left hcne

/-- Witness for C2: bodies at (3, 4) and (3, 204) are separated by 200,
beyond the cutoff 100; their pair pass leaves both accumulators unchanged
while the body at (3, 4), at distance 5 from the origin, still gets a
nonzero sun acceleration toward the origin. -/
theorem cutoff_pair_zero_sun_nonzero_witness :
    PhysicsEngine.planetPairGravity sqWitness
        [Planet.create 3 4 0 0 0, Planet.create 3 204 0 0 0] 0 1 [0, 0] [0, 0] =
      (([0, 0] : List ℚ), ([0, 0] : List ℚ)) ∧
    (∃ c : ℚ, 0 < c ∧ PhysicsEngine.sunAccel sqWitness (Planet.create 3 4 0 0 0) =
      (-(c * (Planet.create 3 4 0 0 0).x), -(c * (Planet.create 3 4 0 0 0).y))) ∧
    PhysicsEngine.sunAccel sqWitness (Planet.create 3 4 0 0 0) ≠ (0, 0) :=
  cutoff_pair_zero_sun_nonzero sqWitness
    [Planet.create 3 4 0 0 0, Planet.create 3 204 0 0 0] 0 1 [0, 0] [0, 0]
    _ _ _ (Planet.create 3 4 0 0 0) rfl rfl rfl
    (by norm_num [Planet.create, List.getD, PhysicsConstants.MAX_FORCE_DISTANCE])
    (by decide)
    (by norm_num [Planet.create, sqWitness])

/-- C3: for a pair below the minimum-distance floor, the squared distance
is clamped to the floor: the computed force magnitude (and the whole
pairwise acceleration) equals the one computed at exactly the floor
distance, the cutoff skip cannot fire, the pair pass performs the
full floored computation, and — whenever the square root of the floor is
positive, as the real square root is — every divisor in that computation
is nonzero, so no singular value arises. -/
theorem floor_clamp (sq : ℚ → ℚ) (ps : List Planet) (i j : ℕ)
    (ax ay : List ℚ) (dx dy r2 : ℚ)
    (hdx : dx = (ps.getD j default).x - (ps.getD i default).x)
    (hdy : dy = (ps.getD j default).y - (ps.getD i default).y)
    (hr2 : r2 = dx * dx + dy * dy)
    (hfloor : r2 < PhysicsConstants.MIN_DISTANCE * PhysicsConstants.MIN_DISTANCE) :
    PhysicsEngine.pairForce sq r2 =
      PhysicsEngine.pairForce sq (PhysicsConstants.MIN_DISTANCE * PhysicsConstants.MIN_DISTANCE) ∧
    PhysicsEngine.pairAccel sq dx dy r2 =
      PhysicsEngine.pairAccel sq dx dy
        (PhysicsConstants.MIN_DISTANCE * PhysicsConstants.MIN_DISTANCE) ∧
    ¬ r2 > PhysicsConstants.MAX_FORCE_DISTANCE * PhysicsConstants.MAX_FORCE_DISTANCE ∧
    PhysicsEngine.planetPairGravity sq ps i j ax ay =
      (let a := PhysicsEngine.pairAccel sq dx dy r2
       let ax1 := ax.set i (ax.getD i 0 + a.1)
       let ax2 := ax1.set j (ax1.getD j 0 - a.1)
       let ay1 := ay.set i (ay.getD i 0 + a.2)
       let ay2 := ay1.set j (ay1.getD j 0 - a.2)
       (ax2, ay2)) ∧
    (0 < sq (PhysicsConstants.MIN_DISTANCE * PhysicsConstants.MIN_DISTANCE) →
      sq (PhysicsEngine.effectiveDistSq r2) * sq (PhysicsEngine.effectiveDistSq r2) *
        PhysicsEngine.distanceScaleSquared ≠ 0 ∧
      sq (PhysicsEngine.effectiveDistSq r2) * PlanetConstants.MASS ≠ 0) := by
  have heff : PhysicsEngine.effectiveDistSq r2 =
      PhysicsConstants.MIN_DISTANCE * PhysicsConstants.MIN_DISTANCE := by
    simp only [PhysicsEngine.effectiveDistSq]
    rw [if_pos hfloor]
  have heff' : PhysicsEngine.effectiveDistSq
      (PhysicsConstants.MIN_DISTANCE * PhysicsConstants.MIN_DISTANCE) =
      PhysicsConstants.MIN_DISTANCE * PhysicsConstants.MIN_DISTANCE := by
    simp only [PhysicsEngine.effectiveDistSq]
    rw [if_neg (lt_irrefl _)]
  have hforce : PhysicsEngine.pairForce sq r2 =
      PhysicsEngine.pairForce sq
        (PhysicsConstants.MIN_DISTANCE * PhysicsConstants.MIN_DISTANCE) := by
    simp only [PhysicsEngine.pairForce, heff, heff']
  have hnear : ¬ r2 > PhysicsConstants.MAX_FORCE_DISTANCE *
      PhysicsConstants.MAX_FORCE_DISTANCE := by
    have h1 : PhysicsConstants.MIN_DISTANCE * PhysicsConstants.MIN_DISTANCE ≤
        PhysicsConstants.MAX_FORCE_DISTANCE * PhysicsConstants.MAX_FORCE_DISTANCE := by
      norm_num [PhysicsConstants.MIN_DISTANCE, PhysicsConstants.MAX_FORCE_DISTANCE]
    push_neg
    linarith
  refine ⟨hforce, ?_, hnear, ?_, ?_⟩
  · simp only [PhysicsEngine.pairAccel, heff, heff', hforce]
  · simp only [PhysicsEngine.planetPairGravity]
    rw [← hdx, ← hdy, ← hr2, if_neg hnear]
  · intro hsqpos
    have hne : sq (PhysicsEngine.effectiveDistSq r2) ≠ 0 := by
      rw [heff]
      exact ne_of_gt hsqpos
    have hds2 : PhysicsEngine.distanceScaleSquared ≠ 0 := by
      norm_num [PhysicsEngine.distanceScaleSquared, PhysicsConstants.DISTANCE_SCALE]
    have hMp : (PlanetConstants.MASS : ℚ) ≠ 0 := by norm_num [PlanetConstants.MASS]
    exact ⟨mul_ne_zero (mul_ne_zero hne hne) hds2, mul_ne_zero hne hMp⟩

/-- Witness for C3: bodies at (0, 0) and (1/2, 0) are separated by 1/2,
below the floor 1; their force equals the force at exactly the floor
distance and the cutoff skip cannot fire. -/
theorem floor_clamp_witness :
    PhysicsEngine.pairForce sqWitness (1 / 4) =
      PhysicsEngine.pairForce sqWitness
        (PhysicsConstants.MIN_DISTANCE * PhysicsConstants.MIN_DISTANCE) ∧
    ¬ (1 / 4 : ℚ) > PhysicsConstants.MAX_FORCE_DISTANCE *
      PhysicsConstants.MAX_FORCE_DISTANCE := by
  have h := floor_clamp sqWitness
    [Planet.create 0 0 0 0 0, Planet.create (1/2) 0 0 0 0] 0 1 [0, 0] [0, 0]
    (1/2) 0 (1/4)
    (by norm_num [Planet.create, List.getD])
    (by norm_num [Planet.create, List.getD])
    (by norm_num)
    (by norm_num [PhysicsConstants.MIN_DISTANCE])
  exact ⟨h.1, h.2.2.1⟩

/-- C4: for a pair within the cutoff, the pairwise contribution one pair
pass adds to body i is the exact component-wise negation of what it adds
to body j — equal in magnitude, opposite in sign, per Newton's third
law. -/
theorem pairwise_newton_third_law (sq : ℚ → ℚ) (ps : List Planet) (i j : ℕ)
    (ax ay : List ℚ) (dx dy r2 : ℚ)
    (hij : i < j) (hix : i < ax.length) (hjx : j < ax.length)
    (hiy : i < ay.length) (hjy : j < ay.length)
    (hdx : dx = (ps.getD j default).x - (ps.getD i default).x)
    (hdy : dy = (ps.getD j default).y - (ps.getD i default).y)
    (hr2 : r2 = dx * dx + dy * dy)
    (hcut : ¬ r2 > PhysicsConstants.MAX_FORCE_DISTANCE * PhysicsConstants.MAX_FORCE_DISTANCE) :
    ((PhysicsEngine.planetPairGravity sq ps i j ax ay).1.getD i 0 - ax.getD i 0) =
      -((PhysicsEngine.planetPairGravity sq ps i j ax ay).1.getD j 0 - ax.getD j 0) ∧
    ((PhysicsEngine.planetPairGravity sq ps i j ax ay).2.getD i 0 - ay.getD i 0) =
      -((PhysicsEngine.planetPairGravity sq ps i j ax ay).2.getD j 0 - ay.getD j 0) := by
  have hne : i ≠ j := Nat.ne_of_lt hij
  simp only [PhysicsEngine.planetPairGravity]
  rw [← hdx, ← hdy, ← hr2]
  rw [if_neg hcut]
  constructor
  · rw [getD_set_ne _ j i _ _ (Ne.symm hne), getD_set_self _ i _ _ hix,
      getD_set_self _ j _ _ (by simpa using hjx), getD_set_ne _ i j _ _ hne]
    ring
  · rw [getD_set_ne _ j i _ _ (Ne.symm hne), getD_set_self _ i _ _ hiy,
      getD_set_self _ j _ _ (by simpa using hjy), getD_set_ne _ i j _ _ hne]
    ring

/-- Witness for C4 at a concrete pair: bodies at (0, 0) and (3, 4),
separation 5, within the cutoff. -/
theorem pairwise_newton_third_law_witness :
    ((PhysicsEngine.planetPairGravity sqWitness
        [Planet.create 0 0 0 0 0, Planet.create 3 4 0 0 0] 0 1 [0, 0] [0, 0]).1.getD 0 0 -
        ([0, 0] : List ℚ).getD 0 0) =
      -((PhysicsEngine.planetPairGravity sqWitness
        [Planet.create 0 0 0 0 0, Planet.create 3 4 0 0 0] 0 1 [0, 0] [0, 0]).1.getD 1 0 -
        ([0, 0] : List ℚ).getD 1 0) ∧
    ((PhysicsEngine.planetPairGravity sqWitness
        [Planet.create 0 0 0 0 0, Planet.create 3 4 0 0 0] 0 1 [0, 0] [0, 0]).2.getD 0 0 -
        ([0, 0] : List ℚ).getD 0 0) =
      -((PhysicsEngine.planetPairGravity sqWitness
        [Planet.create 0 0 0 0 0, Planet.create 3 4 0 0 0] 0 1 [0, 0] [0, 0]).2.getD 1 0 -
        ([0, 0] : List ℚ).getD 1 0) :=
  pairwise_newton_third_law sqWitness
    [Planet.create 0 0 0 0 0, Planet.create 3 4 0 0 0] 0 1 [0, 0] [0, 0]
    _ _ _ (by decide) (by decide) (by decide) (by decide) (by decide)
    rfl rfl rfl
    (by norm_num [Planet.create, List.getD, PhysicsConstants.MAX_FORCE_DISTANCE])

/-- C6: one step samples trails exactly when the wall-clock cooldown has
elapsed.  If it has not, every body's trail is unchanged by the step; if
it has, every body's trail still has exactly TRAIL_LENGTH entries,
most-recent-first: the body's new position is inserted at the head and
only the first TRAIL_LENGTH - 1 old samples are kept, dropping the
oldest. -/
theorem step_trail_policy (sq : ℚ → ℚ) (now : ℤ) (e : PhysicsEngine)
    (hlen : ∀ p ∈ e.planets,
      p.trailPositions.length = PlanetConstants.TRAIL_LENGTH) :
    (PhysicsEngine.update sq now e).2 =
      decide (now - e.lastTrailUpdateTime > RenderConstants.TRAIL_UPDATE_INTERVAL) ∧
    (¬ now - e.lastTrailUpdateTime > RenderConstants.TRAIL_UPDATE_INTERVAL →
      ∀ i : ℕ,
        ((PhysicsEngine.update sq now e).1.planets.getD i default).trailPositions =
          (e.planets.getD i default).trailPositions) ∧
    (now - e.lastTrailUpdateTime > RenderConstants.TRAIL_UPDATE_INTERVAL →
      ∀ i : ℕ, i < e.planets.length →
        ((PhysicsEngine.update sq now e).1.planets.getD i default).trailPositions.length =
          PlanetConstants.TRAIL_LENGTH ∧
        ((PhysicsEngine.update sq now e).1.planets.getD i default).trailPositions =
          (((PhysicsEngine.update sq now e).1.planets.getD i default).x,
           ((PhysicsEngine.update sq now e).1.planets.getD i default).y) ::
            (e.planets.getD i default).trailPositions.take
              (PlanetConstants.TRAIL_LENGTH - 1)) := by
  refine ⟨(update_flag sq now e).trans (shouldUpdateTrails_flag now e), ?_, ?_⟩
  · intro hflag i
    have hsu1 : (PhysicsEngine.shouldUpdateTrails now e).1 = e := by
      unfold PhysicsEngine.shouldUpdateTrails
      rw [if_neg hflag]
    have hsu2 : (PhysicsEngine.shouldUpdateTrails now e).2 = false := by
      unfold PhysicsEngine.shouldUpdateTrails
      rw [if_neg hflag]
    simp only [PhysicsEngine.update, hsu1, hsu2]
    split
    · exact congrArg (fun l => (l.getD i default).trailPositions) (expire_planets now e)
    · by_cases hi : i < e.planets.length
      · rw [getD_map_range _ (by simpa [expire_planets] using hi)]
        simp only [Planet.update, Bool.false_eq_true, if_false, expire_planets]
      · rw [getD_map_range_oob _ (by simpa [expire_planets] using hi)]
        rw [getD_oob e.planets hi]
  · intro hflag i hi
    have hsu1 : (PhysicsEngine.shouldUpdateTrails now e).1 =
        { e with lastTrailUpdateTime := now } := by
      unfold PhysicsEngine.shouldUpdateTrails
      rw [if_pos hflag]
    have hsu2 : (PhysicsEngine.shouldUpdateTrails now e).2 = true := by
      unfold PhysicsEngine.shouldUpdateTrails
      rw [if_pos hflag]
    simp only [PhysicsEngine.update, hsu1, hsu2]
    have hne : ¬ (PhysicsEngine.expireCollisionEffect now
        { e with lastTrailUpdateTime := now }).planets.length = 0 := by
      rw [expire_planets]
      intro h0
      rw [h0] at hi
      exact Nat.not_lt_zero i hi
    rw [if_neg hne]
    simp only [expire_planets]
    rw [getD_map_range _ (by simpa [expire_planets] using hi)]
    have hmem := getD_mem e.planets hi
    have hlen' := hlen _ hmem
    constructor
    · simp only [Planet.update, Planet.sampleTrail, if_pos rfl, if_true]
      simp only [List.length_cons, List.length_take, hlen']
      norm_num [PlanetConstants.TRAIL_LENGTH]
    · simp only [Planet.update, Planet.sampleTrail, if_pos rfl, if_true]

/-- Witness for C6 at a concrete engine: one planet with a freshly
initialized trail, stepped at time 100 with the timer at 0, so the
35 ms cooldown has elapsed. -/
theorem step_trail_policy_witness :
    (∀ p ∈ trailEngineW.planets,
      p.trailPositions.length = PlanetConstants.TRAIL_LENGTH) ∧
    ((PhysicsEngine.update sqWitness 100 trailEngineW).2 =
      decide ((100 : ℤ) - trailEngineW.lastTrailUpdateTime >
        RenderConstants.TRAIL_UPDATE_INTERVAL) ∧
     (¬ (100 : ℤ) - trailEngineW.lastTrailUpdateTime >
        RenderConstants.TRAIL_UPDATE_INTERVAL →
       ∀ i : ℕ,
         ((PhysicsEngine.update sqWitness 100 trailEngineW).1.planets.getD i
            default).trailPositions =
           (trailEngineW.planets.getD i default).trailPositions) ∧
     ((100 : ℤ) - trailEngineW.lastTrailUpdateTime >
        RenderConstants.TRAIL_UPDATE_INTERVAL →
       ∀ i : ℕ, i < trailEngineW.planets.length →
         ((PhysicsEngine.update sqWitness 100 trailEngineW).1.planets.getD i
            default).trailPositions.length = PlanetConstants.TRAIL_LENGTH ∧
         ((PhysicsEngine.update sqWitness 100 trailEngineW).1.planets.getD i
            default).trailPositions =
           (((PhysicsEngine.update sqWitness 100 trailEngineW).1.planets.getD i
              default).x,
            ((PhysicsEngine.update sqWitness 100 trailEngineW).1.planets.getD i
              default).y) ::
             (trailEngineW.planets.getD i default).trailPositions.take
               (PlanetConstants.TRAIL_LENGTH - 1))) :=
  ⟨by decide, step_trail_policy sqWitness 100 trailEngineW (by decide)⟩

/-- C7 counterexample: the source's sun-gravity computation has no
minimum-distance floor, so for a body at the origin it divides by zero —
in float64 that yields Infinity and then NaN, not a finite value
(modelled as `none` by the checked embedding, with `Math.sqrt 0 = 0`).
This refutes the claim that the central-mass acceleration is finite for
every finite body position including the origin. -/
theorem sun_gravity_origin_not_finite :
    PhysicsEngine.sunAccelChecked sqWitness (Planet.create 0 0 0 0 0) = none := by
  norm_num [PhysicsEngine.sunAccelChecked, Planet.create, sqWitness]

/-- C7 amended: for every body at nonzero distance from the origin
(so the square root of its squared distance is positive, as the real
square root is), every division in the sun-gravity computation has a
nonzero divisor and the computation produces the finite value of the
plain embedding; the minimum-distance floor guards only the pairwise
computation and plays no role here. -/
theorem sun_gravity_finite_off_origin (sq : ℚ → ℚ) (p : Planet)
    (hrpos : 0 < sq (-p.x * -p.x + -p.y * -p.y)) :
    PhysicsEngine.sunAccelChecked sq p = some (PhysicsEngine.sunAccel sq p) := by
  have hds2 : PhysicsEngine.distanceScaleSquared ≠ 0 := by
    norm_num [PhysicsEngine.distanceScaleSquared, PhysicsConstants.DISTANCE_SCALE]
  have hMp : (PlanetConstants.MASS : ℚ) ≠ 0 := by norm_num [PlanetConstants.MASS]
  have hrne : sq (-p.x * -p.x + -p.y * -p.y) ≠ 0 := ne_of_gt hrpos
  simp only [PhysicsEngine.sunAccelChecked, PhysicsEngine.sunAccel]
  rw [if_neg (mul_ne_zero (mul_ne_zero hrne hrne) hds2),
    if_neg (mul_ne_zero hrne hMp)]

/-- Witness for the amended C7 at a concrete body at (3, 4), distance 5
from the origin. -/
theorem sun_gravity_finite_off_origin_witness :
    PhysicsEngine.sunAccelChecked sqWitness (Planet.create 3 4 0 0 0) =
      some (PhysicsEngine.sunAccel sqWitness (Planet.create 3 4 0 0 0)) :=
  sun_gravity_finite_off_origin sqWitness (Planet.create 3 4 0 0 0)
    (by norm_num [Planet.create, sqWitness])

/-- C8: the collision effect admits exactly the three documented
transitions.  A step preserves the effect's position and start time and
leaves `active` equal to "was active and not yet expired" — so a step
deactivates exactly on expiry and never activates.  A removal pass
either leaves the effect untouched or overwrites it, last-writer-wins,
with position and current time of some in-bounds body that collided with
the sun (the Idle-to-Active and Active-to-Active transitions), and it
never deactivates an active effect. -/
theorem collision_effect_transitions (sq : ℚ → ℚ) (now : ℤ) (maxX maxY : ℚ)
    (e : PhysicsEngine) :
    (PhysicsEngine.update sq now e).1.effect.active =
      (e.effect.active &&
        !(decide (now - e.effect.startTime > CollisionConstants.COLLISION_EFFECT_DURATION))) ∧
    (PhysicsEngine.update sq now e).1.effect.x = e.effect.x ∧
    (PhysicsEngine.update sq now e).1.effect.y = e.effect.y ∧
    (PhysicsEngine.update sq now e).1.effect.startTime = e.effect.startTime ∧
    ((PhysicsEngine.removeOutOfBoundsPlanets now maxX maxY e).effect = e.effect ∨
      ∃ p ∈ e.planets, p.isOutOfBounds maxX maxY = false ∧ p.isCollidedWithSun = true ∧
        (PhysicsEngine.removeOutOfBoundsPlanets now maxX maxY e).effect =
          { active := true, x := p.x, y := p.y, startTime := now }) ∧
    (e.effect.active = true →
      (PhysicsEngine.removeOutOfBoundsPlanets now maxX maxY e).effect.active = true) := by
  have hs := shouldUpdateTrails_effect now e
  have hx := expire_effect_spec now (PhysicsEngine.shouldUpdateTrails now e).1
  rw [hs] at hx
  have hu := update_effect_eq sq now e
  refine ⟨?_, ?_, ?_, ?_, ?_, ?_⟩
  · rw [hu]; exact hx.1
  · rw [hu]; exact hx.2.1
  · rw [hu]; exact hx.2.2.1
  · rw [hu]; exact hx.2.2.2
  · unfold PhysicsEngine.removeOutOfBoundsPlanets
    split
    · exact Or.inl rfl
    · exact removeLoop_effect_spec now maxX maxY e.planets e.effect
  · intro ha
    unfold PhysicsEngine.removeOutOfBoundsPlanets
    split
    · exact ha
    · exact removeLoop_keeps_active now maxX maxY e.planets e.effect ha

/-- Witness for C8 at a concrete engine with an active effect: a removal
pass (which here collides the planet at (3, 0) with the sun) leaves the
effect active. -/
theorem collision_effect_transitions_witness :
    effectEngineW.effect.active = true ∧
    (PhysicsEngine.removeOutOfBoundsPlanets 50 100 100 effectEngineW).effect.active = true :=
  ⟨by decide,
    (collision_effect_transitions sqWitness 50 100 100 effectEngineW).2.2.2.2.2 (by decide)⟩

/-- C9 counterexample: `getPlanets` returns the engine's internal array
itself (source: `return this.planets;`), not a snapshot distinct from
it.  In the reference-level model, clearing the array behind the
returned reference empties the engine's own live-body collection,
refuting "mutating the returned sequence does not change the core's
state". -/
theorem getPlanets_no_snapshot :
    EngineHeap.getPlanetCount
        (EngineHeap.writeArray { heap := [[Planet.create 1 2 3 4 0]], planetsRef := 0 }
          (EngineHeap.getPlanets { heap := [[Planet.create 1 2 3 4 0]], planetsRef := 0 })
          []) = 0 ∧
    EngineHeap.getPlanetCount { heap := [[Planet.create 1 2 3 4 0]], planetsRef := 0 } = 1 := by
  constructor
  · rfl
  · rfl

/-- C9 amended: `getPlanets` returns the internal live array itself — an
alias of the engine's collection, not an immutable snapshot.  Writing
through the returned reference replaces the engine's collection, and a
subsequent addPlanet is visible through a previously returned
reference. -/
theorem getPlanets_returns_alias (e : EngineHeap) (v : List Planet)
    (x y vx vy : ℚ) (c : ℕ) (h : e.planetsRef < e.heap.length) :
    EngineHeap.getPlanets e = e.planetsRef ∧
    (e.writeArray (EngineHeap.getPlanets e) v).readArray (EngineHeap.getPlanets e) = v ∧
    (e.addPlanet x y vx vy c).readArray (EngineHeap.getPlanets e) =
      PhysicsEngine.addPlanetList (e.readArray (EngineHeap.getPlanets e)) x y vx vy c := by
  refine ⟨rfl, ?_, ?_⟩
  · exact getD_set_self e.heap e.planetsRef v [] h
  · exact getD_set_self e.heap e.planetsRef _ [] h

/-- Witness for the amended C9 at a concrete one-array heap. -/
theorem getPlanets_returns_alias_witness :
    EngineHeap.getPlanets { heap := [[]], planetsRef := 0 } = 0 ∧
    (EngineHeap.writeArray { heap := [[]], planetsRef := 0 }
        (EngineHeap.getPlanets { heap := [[]], planetsRef := 0 })
        [Planet.create 9 9 0 0 0]).readArray
      (EngineHeap.getPlanets { heap := [[]], planetsRef := 0 }) =
        [Planet.create 9 9 0 0 0] ∧
    (EngineHeap.addPlanet { heap := [[]], planetsRef := 0 } 1 2 3 4 5).readArray
      (EngineHeap.getPlanets { heap := [[]], planetsRef := 0 }) =
      PhysicsEngine.addPlanetList
        (EngineHeap.readArray { heap := [[]], planetsRef := 0 }
          (EngineHeap.getPlanets { heap := [[]], planetsRef := 0 })) 1 2 3 4 5 :=
  getPlanets_returns_alias { heap := [[]], planetsRef := 0 } [Planet.create 9 9 0 0 0]
    1 2 3 4 5 (by decide)

end GravSim
